import Mathlib

/-!
Verification of the application-lifecycle shell of the orca repository
(crates/orca_libadwaita): a shallow embedding of `lib.rs`, `application.rs`
and `window.rs` as a pure state machine, together with proofs of the
spec's testable properties.

The GTK/libadwaita runtime is external to the repository; its primitives
(`active_window`, `present`, `run`, the `clone!(@weak ...)` capture) are
modelled as explicit state transitions following the collaborator
contracts stated in the spec (present makes a window visible and focused
and records it as the active window; `run` drives a list of events and
reports exit status 0 on a normal quit; a weak capture upgrades to the
object while it is alive and turns the handler into a no-op once it is
dead). Window reference identity is modelled by a numeric id allocated
at construction.
-/

namespace Orca

/-- Presentation state of one top-level window. The `owner` field records
the application-id of the `gtk::Application` the window was parented to
(`OrcaWindow::new` sets the "application" property). -/
structure Window where
  id : Nat
  owner : String
  visible : Bool
  focused : Bool
deriving DecidableEq, Repr

/-- State built by `gtk::AboutDialog::builder()` in
`OrcaApplication::show_about` (application.rs): transient-for parent,
modal flag, program name, version, authors, and whether `present` has
been called on it. -/
structure AboutDialog where
  transient_for : Nat
  modal : Bool
  program_name : String
  version : String
  authors : List String
  presented : Bool
deriving DecidableEq, Repr

/-- Lifecycle phase of the application process: the event loop is either
running or terminating after `quit`. -/
inductive Phase where
  | Running : Phase
  | Terminating : Phase
deriving DecidableEq, Repr

/-- The observable state of one `OrcaApplication` instance together with
the windowing collaborator's bookkeeping: identity, action and
accelerator tables, the set of live windows, the active window (the
most recently presented one), a counter of window constructions, the
last window `present` was requested on, live about-dialogs, and phase. -/
structure AppState where
  application_id : String
  flags : Nat
  actions : List String
  accels : List (String × List String)
  windows : List Window
  active_window : Option Nat
  next_window_id : Nat
  windows_constructed : Nat
  last_presented : Option Nat
  dialogs : List AboutDialog
  phase : Phase
deriving DecidableEq, Repr

/-- Modelled from the spec: the repository's generated `config` module
(GETTEXT_PACKAGE, LOCALEDIR, VERSION) is not under the sources; the spec
describes VERSION as an externally supplied static version string, so a
fixed opaque-valued string stands for it. -/
def VERSION : String := "0.1.0"

namespace OrcaWindow

/-- `OrcaWindow::new(application)` (window.rs): constructs a fresh window
parented to the application by setting its "application" property. The
new window is not yet visible or focused. Returns the new window's id
together with the updated state. -/
def new (s : AppState) : Nat × AppState :=
  let w : Window :=
    { id := s.next_window_id, owner := s.application_id
      visible := false, focused := false }
  (w.id,
    { s with
        windows := s.windows ++ [w]
        next_window_id := s.next_window_id + 1
        windows_constructed := s.windows_constructed + 1 })

end OrcaWindow

namespace OrcaApplication

/-- The effect of `window.present()` on one window record: the presented
window becomes visible and focused, every other window loses focus. -/
def presentOne (wid : Nat) (w : Window) : Window :=
  if w.id = wid then { w with visible := true, focused := true }
  else { w with focused := false }

/-- `window.present()` (GTK collaborator, per the spec's WindowManager
contract): makes the window visible and brings it to foreground focus;
the presented window becomes the application's active window. -/
def present (wid : Nat) (s : AppState) : AppState :=
  { s with
      windows := s.windows.map (presentOne wid)
      active_window := some wid
      last_presented := some wid }

/-- `gio::ActionMap::add_action` on the application: registers the named
action, replacing any previous registration under the same name. -/
def add_action (name : String) (s : AppState) : AppState :=
  { s with actions := s.actions.filter (fun a => a ≠ name) ++ [name] }

/-- `OrcaApplication::setup_gactions` (application.rs): registers the
`quit` action and then the `about` action. -/
def setup_gactions (s : AppState) : AppState :=
  add_action "about" (add_action "quit" s)

/-- `gtk::Application::set_accels_for_action`: binds the accelerator
list to the detailed action name, replacing any previous binding. -/
def set_accels_for_action (name : String) (accels : List String) (s : AppState) : AppState :=
  { s with accels := s.accels.filter (fun p => p.fst ≠ name) ++ [(name, accels)] }

/-- `imp::OrcaApplication::constructed` (application.rs): after the
parent's construction, runs `setup_gactions` and then binds the primary
q accelerator to "app.quit". -/
def constructed (s : AppState) : AppState :=
  set_accels_for_action "app.quit" ["<primary>q"] (setup_gactions s)

/-- `OrcaApplication::new(application_id, flags)` (application.rs):
`glib::Object::new` with the given properties, which triggers the
`constructed` hook before returning. All tables start empty and no
window exists. -/
def new (application_id : String) (flags : Nat) : AppState :=
  constructed
    { application_id := application_id, flags := flags
      actions := [], accels := []
      windows := [], active_window := none
      next_window_id := 0, windows_constructed := 0
      last_presented := none, dialogs := []
      phase := Phase.Running }

/-- `imp::OrcaApplication::activate` (application.rs): take the active
window if the application has one, otherwise construct a fresh
`OrcaWindow` parented to the application; then present it. -/
def activate (s : AppState) : AppState :=
  match s.active_window with
  | some w => present w s
  | none => present (OrcaWindow.new s).fst (OrcaWindow.new s).snd

/-- The dialog record built by `OrcaApplication::show_about` for a given
parent window: transient for it, modal, program name "orca", the
static version, authors ["William Roy"], and presented. -/
def aboutDialog (wid : Nat) : AboutDialog :=
  { transient_for := wid, modal := true, program_name := "orca"
    version := VERSION, authors := ["William Roy"], presented := true }

/-- `OrcaApplication::show_about` (application.rs):
`self.active_window().unwrap()` — `none` here models the unwrap panic —
then builds the about dialog transient for and modal over that window
and presents it. -/
def show_about (s : AppState) : Option AppState :=
  match s.active_window with
  | none => none
  | some wid => some { s with dialogs := s.dialogs ++ [aboutDialog wid] }

/-- Dialog dismissal, handled entirely by the presentation layer: the
ephemeral dialog goes away and nothing else changes. -/
def dismiss_dialog (s : AppState) : AppState :=
  { s with dialogs := s.dialogs.dropLast }

/-- `gio::Application::quit`: asks the event loop to terminate. -/
def quit (s : AppState) : AppState :=
  { s with phase := Phase.Terminating }

/-- The `quit` action handler installed by `setup_gactions`: the closure
captures the application through `clone!(@weak self as app)`, so it runs
`app.quit()` only while the application object is alive and is a no-op
once the weak reference is dead. -/
def quitHandler (alive : Bool) (s : AppState) : AppState :=
  if alive then quit s else s

/-- The `about` action handler installed by `setup_gactions`: weak
capture as for `quitHandler`; while alive it runs `app.show_about()`
(which can panic, hence `Option`), once dead it is a no-op. -/
def aboutHandler (alive : Bool) (s : AppState) : Option AppState :=
  if alive then show_about s else some s

/-- Lookup in the accelerator table. -/
def accels_for (s : AppState) (name : String) : Option (List String) :=
  (s.accels.find? (fun p => p.fst = name)).map Prod.snd

end OrcaApplication

/-- An event delivered by the hosting event loop to the running
application: an activation, or the dispatch of a named action. -/
inductive Event where
  | activation : Event
  | action : String → Event
deriving DecidableEq, Repr

/-- One step of the event loop: after `Terminating` nothing is
dispatched; while `Running`, an activation runs `activate`, and an
action runs its registered handler (the application is alive for the
whole run). An unregistered name dispatches nothing. `none` models a
handler panic. -/
def dispatch (s : AppState) (e : Event) : Option AppState :=
  match s.phase with
  | Phase.Terminating => some s
  | Phase.Running =>
    match e with
    | Event.activation => some (OrcaApplication.activate s)
    | Event.action n =>
      if n ∈ s.actions then
        if n = "quit" then some (OrcaApplication.quitHandler true s)
        else if n = "about" then OrcaApplication.aboutHandler true s
        else some s
      else some s

/-- Folds the event list through `dispatch`, stopping on a panic. -/
def runLoop (s : AppState) : List Event → Option AppState
  | [] => some s
  | e :: es =>
    match dispatch s e with
    | none => none
    | some s1 => runLoop s1 es

/-- `app.run()` (gio collaborator): drives the event loop over the
events the host delivers and reports exit status 0 on a normal quit. -/
def run (s : AppState) (events : List Event) : Option (AppState × Nat) :=
  (runLoop s events).map (fun s1 => (s1, 0))

/-- Outcomes of the external collaborators `main` calls before
constructing the application: the three gettext initialisation calls and
the resource-bundle registration. -/
structure Collaborators where
  bindtextdomain_ok : Bool
  bind_textdomain_codeset_ok : Bool
  textdomain_ok : Bool
  resources_register_ok : Bool
deriving DecidableEq, Repr

/-- The startup effects of `main` (lib.rs), in program order. -/
inductive StartupStep where
  | bindTextdomain : StartupStep
  | bindCodeset : StartupStep
  | textdomainSwitch : StartupStep
  | registerResources : StartupStep
  | constructApp : StartupStep
deriving DecidableEq, Repr

/-- What a completed `main` produced: the startup trace, the application
state when the event loop returned, and the process exit code passed to
`std::process::exit`. -/
structure RunOutcome where
  trace : List StartupStep
  app : AppState
  exit_code : Nat
deriving DecidableEq, Repr

/-- `main` (lib.rs): bind the text domain, set its encoding, switch to
it, register the resource bundle — each `.expect(...)` aborts startup
with its diagnostic on failure — then construct the application with id
"com.github.wroyca.orca" and empty flags and exit the process with the
result of `app.run()`. -/
def main (c : Collaborators) (events : List Event) : Except String RunOutcome :=
  if !c.bindtextdomain_ok then Except.error "Unable to bind the text domain"
  else if !c.bind_textdomain_codeset_ok then
    Except.error "Unable to set the text domain encoding"
  else if !c.textdomain_ok then
    Except.error "Unable to switch to the text domain"
  else if !c.resources_register_ok then Except.error "Could not load resources"
  else
    match run (OrcaApplication.new "com.github.wroyca.orca" 0) events with
    | none => Except.error "panicked in event loop"
    | some (final, code) =>
      Except.ok
        { trace :=
            [StartupStep.bindTextdomain, StartupStep.bindCodeset,
             StartupStep.textdomainSwitch, StartupStep.registerResources,
             StartupStep.constructApp]
          app := final, exit_code := code }

end Orca

namespace Orca

/-- C2: immediately after construction the action table is exactly
[quit, about], the accelerator table binds &lt;primary&gt;q to app.quit, and
nothing is bound to app.about; both registrations happen inside the
`constructed` hook, hence before `run` is entered. -/
theorem action_registration_complete :
    ∀ application_id : String, ∀ flags : Nat,
      (OrcaApplication.new application_id flags).actions = ["quit", "about"] ∧
      OrcaApplication.accels_for (OrcaApplication.new application_id flags) "app.quit" =
        some ["<primary>q"] ∧
      OrcaApplication.accels_for (OrcaApplication.new application_id flags) "app.about" =
        none := by
  intro application_id flags
  refine ⟨rfl, rfl, rfl⟩

/-- Witness for C2 at the identifier and flags `main` uses. -/
theorem action_registration_complete_witness :
    (OrcaApplication.new "com.github.wroyca.orca" 0).actions = ["quit", "about"] ∧
    OrcaApplication.accels_for (OrcaApplication.new "com.github.wroyca.orca" 0)
        "app.quit" = some ["<primary>q"] ∧
    OrcaApplication.accels_for (OrcaApplication.new "com.github.wroyca.orca" 0)
        "app.about" = none :=
  action_registration_complete "com.github.wroyca.orca" 0

/-- Presenting one window twice is presenting it once, pointwise. -/
theorem presentOne_idem (wid : Nat) (w : Window) :
    OrcaApplication.presentOne wid (OrcaApplication.presentOne wid w) =
      OrcaApplication.presentOne wid w := by
  unfold OrcaApplication.presentOne
  by_cases h : w.id = wid <;> simp [h]

/-- Mapping a pointwise-idempotent function twice is mapping it once. -/
theorem map_idem_of_idem (f : Window → Window) (hf : ∀ w, f (f w) = f w) :
    ∀ l : List Window, (l.map f).map f = l.map f := by
  intro l
  induction l with
  | nil => rfl
  | cons a t ih => simp only [List.map_cons, hf, ih]

/-- `present` is idempotent on the whole application state. -/
theorem present_idem (wid : Nat) (s : AppState) :
    OrcaApplication.present wid (OrcaApplication.present wid s) =
      OrcaApplication.present wid s := by
  unfold OrcaApplication.present
  simp only [map_idem_of_idem _ (presentOne_idem wid) s.windows]

/-- After `present`, the presented window is the active window. -/
theorem present_active (wid : Nat) (s : AppState) :
    (OrcaApplication.present wid s).active_window = some wid := rfl

/-- `activate` is idempotent: a second activation re-presents the
window the first one made active and changes nothing. -/
theorem activate_idem (s : AppState) :
    OrcaApplication.activate (OrcaApplication.activate s) =
      OrcaApplication.activate s := by
  unfold OrcaApplication.activate
  cases h : s.active_window with
  | some w =>
    simp only [present_active, present_idem]
  | none =>
    simp only [present_active, present_idem]

/-- The state after the first `activate` on a freshly constructed
application, computed once and shared by several proofs. -/
def firstActivated : AppState :=
  OrcaApplication.activate (OrcaApplication.new "com.github.wroyca.orca" 0)

/-- C1: from a fresh application, any number n ≥ 1 of `activate` calls
constructs exactly one window, leaves exactly one window live, and
every call presents the window the first call presented. -/
theorem singleton_window_invariant :
    ∀ n : Nat, 1 ≤ n →
      (OrcaApplication.activate^[n] (OrcaApplication.new "com.github.wroyca.orca" 0)) =
        firstActivated ∧
      firstActivated.windows_constructed = 1 ∧
      firstActivated.windows.length = 1 ∧
      firstActivated.last_presented = some 0 ∧
      (OrcaApplication.activate^[n]
          (OrcaApplication.new "com.github.wroyca.orca" 0)).last_presented =
        firstActivated.last_presented := by
  intro n hn
  obtain ⟨m, rfl⟩ : ∃ m, n = m + 1 := ⟨n - 1, (Nat.succ_pred_eq_of_pos hn).symm⟩
  have hstep :
      OrcaApplication.activate^[m + 1]
          (OrcaApplication.new "com.github.wroyca.orca" 0) = firstActivated := by
    rw [Function.iterate_succ_apply]
    exact Function.iterate_fixed (activate_idem _) m
  refine ⟨hstep, rfl, rfl, rfl, by rw [hstep]⟩

/-- Witness for C1 at n = 3. -/
theorem singleton_window_invariant_witness :
    (OrcaApplication.activate^[3] (OrcaApplication.new "com.github.wroyca.orca" 0)) =
      firstActivated ∧
    firstActivated.windows_constructed = 1 ∧
    firstActivated.windows.length = 1 ∧
    firstActivated.last_presented = some 0 ∧
    (OrcaApplication.activate^[3]
        (OrcaApplication.new "com.github.wroyca.orca" 0)).last_presented =
      firstActivated.last_presented :=
  singleton_window_invariant 3 (by decide)

/-- C3: `activate` presents the existing active window when there is
one, otherwise presents a freshly constructed window parented to the
application (one more construction, owner = application id); and it is
safe to repeat: every further activation converges on the same state,
hence the same single window. -/
theorem activate_get_or_create_then_present (s : AppState) :
    (∀ w : Nat, s.active_window = some w →
      OrcaApplication.activate s = OrcaApplication.present w s) ∧
    (s.active_window = none →
      OrcaApplication.activate s =
        OrcaApplication.present (OrcaWindow.new s).fst (OrcaWindow.new s).snd ∧
      (OrcaWindow.new s).snd.windows_constructed = s.windows_constructed + 1 ∧
      (∃ w : Window, w ∈ (OrcaWindow.new s).snd.windows ∧
        w.id = (OrcaWindow.new s).fst ∧ w.owner = s.application_id)) ∧
    (∀ n : Nat, OrcaApplication.activate^[n + 1] s = OrcaApplication.activate s) := by
  refine ⟨?_, ?_, ?_⟩
  · intro w hw
    unfold OrcaApplication.activate
    rw [hw]
  · intro hw
    refine ⟨?_, rfl, ?_⟩
    · unfold OrcaApplication.activate
      rw [hw]
    · refine ⟨{ id := s.next_window_id, owner := s.application_id,
                visible := false, focused := false }, ?_, rfl, rfl⟩
      simp [OrcaWindow.new]
  · intro n
    rw [Function.iterate_succ_apply]
    exact Function.iterate_fixed (activate_idem _) n

/-- Witness for C3 on the fresh application (no active window) and on
the once-activated state (active window 0). -/
theorem activate_get_or_create_then_present_witness :
    (OrcaApplication.activate (OrcaApplication.new "com.github.wroyca.orca" 0) =
      OrcaApplication.present
        (OrcaWindow.new (OrcaApplication.new "com.github.wroyca.orca" 0)).fst
        (OrcaWindow.new (OrcaApplication.new "com.github.wroyca.orca" 0)).snd) ∧
    OrcaApplication.activate firstActivated =
      OrcaApplication.present 0 firstActivated ∧
    OrcaApplication.activate^[2] firstActivated =
      OrcaApplication.activate firstActivated :=
  ⟨((activate_get_or_create_then_present _).2.1 rfl).1,
   (activate_get_or_create_then_present firstActivated).1 0 rfl,
   (activate_get_or_create_then_present firstActivated).2.2 1⟩

/-- C8: presentation is idempotent — presenting the same window twice
equals presenting it once, presentation never adds or removes a window,
never constructs one, and leaves the presented window visible and
focused (re-presenting an already-visible window just re-focuses it). -/
theorem present_idempotent (wid : Nat) (s : AppState) :
    OrcaApplication.present wid (OrcaApplication.present wid s) =
      OrcaApplication.present wid s ∧
    (OrcaApplication.present wid s).windows.length = s.windows.length ∧
    (OrcaApplication.present wid s).windows_constructed = s.windows_constructed ∧
    (∀ w : Window, w ∈ (OrcaApplication.present wid s).windows → w.id = wid →
      w.visible = true ∧ w.focused = true) := by
  refine ⟨present_idem wid s, by simp [OrcaApplication.present], rfl, ?_⟩
  intro w hw hid
  simp only [OrcaApplication.present, List.mem_map] at hw
  obtain ⟨w0, _, rfl⟩ := hw
  unfold OrcaApplication.presentOne at hid ⊢
  by_cases h : w0.id = wid
  · simp [h]
  · simp [h] at hid

/-- Witness for C8 on the once-activated state at window 0. -/
theorem present_idempotent_witness :
    OrcaApplication.present 0 (OrcaApplication.present 0 firstActivated) =
      OrcaApplication.present 0 firstActivated ∧
    (OrcaApplication.present 0 firstActivated).windows.length =
      firstActivated.windows.length ∧
    ((OrcaApplication.present 0 firstActivated).windows.get
        ⟨0, by decide⟩).visible = true :=
  ⟨(present_idempotent 0 firstActivated).1,
   (present_idempotent 0 firstActivated).2.1,
   ((present_idempotent 0 firstActivated).2.2.2
      ((OrcaApplication.present 0 firstActivated).windows.get ⟨0, by decide⟩)
      (List.get_mem _ _ _) (by decide)).1⟩

/-- C4: with an active window, `show_about` succeeds and appends exactly
one about dialog — transient for and modal over that window, program
name "orca", the static version and author list, already presented —
changing nothing else; and dismissing that dialog restores the previous
dialog list and changes nothing else either. -/
theorem show_about_success (s : AppState) (wid : Nat)
    (h : s.active_window = some wid) :
    OrcaApplication.show_about s =
      some { s with dialogs := s.dialogs ++ [OrcaApplication.aboutDialog wid] } ∧
    (OrcaApplication.aboutDialog wid).transient_for = wid ∧
    (OrcaApplication.aboutDialog wid).modal = true ∧
    (OrcaApplication.aboutDialog wid).program_name = "orca" ∧
    (OrcaApplication.aboutDialog wid).version = VERSION ∧
    (OrcaApplication.aboutDialog wid).authors = ["William Roy"] ∧
    (OrcaApplication.aboutDialog wid).presented = true ∧
    OrcaApplication.dismiss_dialog
        { s with dialogs := s.dialogs ++ [OrcaApplication.aboutDialog wid] } =
      { s with dialogs := s.dialogs } := by
  refine ⟨?_, rfl, rfl, rfl, rfl, rfl, rfl, ?_⟩
  · unfold OrcaApplication.show_about
    rw [h]
  · unfold OrcaApplication.dismiss_dialog
    simp

/-- Witness for C4 on the once-activated state (active window 0). -/
theorem show_about_success_witness :
    OrcaApplication.show_about firstActivated =
      some { firstActivated with
               dialogs := firstActivated.dialogs ++ [OrcaApplication.aboutDialog 0] } ∧
    OrcaApplication.dismiss_dialog
        { firstActivated with
            dialogs := firstActivated.dialogs ++ [OrcaApplication.aboutDialog 0] } =
      { firstActivated with dialogs := firstActivated.dialogs } :=
  ⟨(show_about_success firstActivated 0 rfl).1,
   (show_about_success firstActivated 0 rfl).2.2.2.2.2.2.2⟩

/-- C5: `show_about` with no active window is the unwrap panic (`none`),
a fatal programming error rather than a recoverable result; under the
precondition that an active window exists this branch is unreachable and
the call succeeds. -/
theorem show_about_precondition (s : AppState) :
    (s.active_window = none → OrcaApplication.show_about s = none) ∧
    (∀ wid : Nat, s.active_window = some wid →
      (OrcaApplication.show_about s).isSome = true) := by
  constructor
  · intro h
    unfold OrcaApplication.show_about
    rw [h]
  · intro wid h
    unfold OrcaApplication.show_about
    rw [h]
    rfl

/-- Witness for C5: the fresh application (no window yet) panics, the
once-activated application succeeds. -/
theorem show_about_precondition_witness :
    OrcaApplication.show_about (OrcaApplication.new "com.github.wroyca.orca" 0) =
      none ∧
    (OrcaApplication.show_about firstActivated).isSome = true :=
  ⟨(show_about_precondition (OrcaApplication.new "com.github.wroyca.orca" 0)).1 rfl,
   (show_about_precondition firstActivated).2 0 rfl⟩

/-- C10: both action handlers hold only a weak reference to the
application; once the application object is dead the handler body does
not run — quit leaves the state untouched and about neither panics nor
changes anything — while a live reference runs the real body. -/
theorem weak_handlers_noop_when_dead (s : AppState) :
    OrcaApplication.quitHandler false s = s ∧
    OrcaApplication.aboutHandler false s = some s ∧
    OrcaApplication.quitHandler true s = OrcaApplication.quit s ∧
    OrcaApplication.aboutHandler true s = OrcaApplication.show_about s :=
  ⟨rfl, rfl, rfl, rfl⟩

/-- Witness for C10 on the once-activated state. -/
theorem weak_handlers_noop_when_dead_witness :
    OrcaApplication.quitHandler false firstActivated = firstActivated ∧
    OrcaApplication.aboutHandler false firstActivated = some firstActivated ∧
    OrcaApplication.quitHandler true firstActivated =
      OrcaApplication.quit firstActivated ∧
    OrcaApplication.aboutHandler true firstActivated =
      OrcaApplication.show_about firstActivated :=
  weak_handlers_noop_when_dead firstActivated

/-- Every event-loop step leaves the application identity and startup
flags untouched. -/
theorem dispatch_preserves_identity (s : AppState) (e : Event) (s1 : AppState)
    (h : dispatch s e = some s1) :
    s1.application_id = s.application_id ∧ s1.flags = s.flags := by
  unfold dispatch at h
  cases hph : s.phase with
  | Terminating =>
    rw [hph] at h
    cases h
    exact ⟨rfl, rfl⟩
  | Running =>
    rw [hph] at h
    cases e with
    | activation =>
      cases h
      unfold OrcaApplication.activate
      cases hw : s.active_window <;> exact ⟨rfl, rfl⟩
    | action n =>
      by_cases hmem : n ∈ s.actions
      · simp only [hmem, if_true] at h
        by_cases hq : n = "quit"
        · simp only [hq, if_true] at h
          cases h
          exact ⟨rfl, rfl⟩
        · by_cases ha : n = "about"
          · simp only [hq, ha, if_false, if_true] at h
            unfold OrcaApplication.aboutHandler OrcaApplication.show_about at h
            simp only [if_true] at h
            cases hw : s.active_window with
            | none => rw [hw] at h; cases h
            | some wid =>
              rw [hw] at h
              cases h
              exact ⟨rfl, rfl⟩
          · simp only [hq, ha, if_false] at h
            cases h
            exact ⟨rfl, rfl⟩
      · simp only [hmem, if_false] at h
        cases h
        exact ⟨rfl, rfl⟩

/-- The event loop preserves the application identity and flags across
any event sequence. -/
theorem runLoop_preserves_identity (events : List Event) :
    ∀ s s1 : AppState, runLoop s events = some s1 →
      s1.application_id = s.application_id ∧ s1.flags = s.flags := by
  induction events with
  | nil =>
    intro s s1 h
    cases h
    exact ⟨rfl, rfl⟩
  | cons e es ih =>
    intro s s1 h
    unfold runLoop at h
    cases hd : dispatch s e with
    | none => rw [hd] at h; cases h
    | some s2 =>
      rw [hd] at h
      have h2 := dispatch_preserves_identity s e s2 hd
      have h3 := ih s2 s1 h
      exact ⟨h3.1.trans h2.1, h3.2.trans h2.2⟩

/-- Inversion of a successful `main`: the startup trace is the fixed
in-order effect list, the exit code is the run result 0, and the final
state is what the event loop produced from the freshly constructed
application. -/
theorem main_ok_inv (c : Collaborators) (events : List Event) (o : RunOutcome)
    (h : main c events = Except.ok o) :
    o.trace =
      [StartupStep.bindTextdomain, StartupStep.bindCodeset,
       StartupStep.textdomainSwitch, StartupStep.registerResources,
       StartupStep.constructApp] ∧
    o.exit_code = 0 ∧
    runLoop (OrcaApplication.new "com.github.wroyca.orca" 0) events = some o.app := by
  unfold main at h
  by_cases h1 : c.bindtextdomain_ok
  · simp only [h1, Bool.not_true, Bool.false_eq_true, if_false] at h
    by_cases h2 : c.bind_textdomain_codeset_ok
    · simp only [h2, Bool.not_true, Bool.false_eq_true, if_false] at h
      by_cases h3 : c.textdomain_ok
      · simp only [h3, Bool.not_true, Bool.false_eq_true, if_false] at h
        by_cases h4 : c.resources_register_ok
        · simp only [h4, Bool.not_true, Bool.false_eq_true, if_false] at h
          unfold run at h
          cases hr : runLoop (OrcaApplication.new "com.github.wroyca.orca" 0) events with
          | none => rw [hr] at h; cases h
          | some s1 =>
            rw [hr] at h
            simp only [Option.map_some'] at h
            cases h
            exact ⟨rfl, rfl, rfl⟩
        · simp only [h4, Bool.not_false, if_true] at h
          cases h
      · simp only [h3, Bool.not_false, if_true] at h
        cases h
    · simp only [h2, Bool.not_false, if_true] at h
      cases h
  · simp only [h1, Bool.not_false, if_true] at h
    cases h

/-- All four startup collaborators succeeding. -/
def allOk : Collaborators :=
  { bindtextdomain_ok := true, bind_textdomain_codeset_ok := true
    textdomain_ok := true, resources_register_ok := true }

/-- The outcome of a run that receives no events: the loop returns the
freshly constructed application unchanged, exit code 0. -/
def idleOutcome : RunOutcome :=
  { trace :=
      [StartupStep.bindTextdomain, StartupStep.bindCodeset,
       StartupStep.textdomainSwitch, StartupStep.registerResources,
       StartupStep.constructApp]
    app := OrcaApplication.new "com.github.wroyca.orca" 0
    exit_code := 0 }

/-- C6: dispatching the registered `quit` action from a Running state
runs the quit handler and enters `Terminating`; `Terminating` is
absorbing — no further event dispatches anything; and a completed `main`
exits the process with the event loop's own run result, 0 on a normal
quit. -/
theorem quit_terminates_event_loop :
    (∀ s : AppState, s.phase = Phase.Running → "quit" ∈ s.actions →
      dispatch s (Event.action "quit") = some (OrcaApplication.quit s) ∧
      (OrcaApplication.quit s).phase = Phase.Terminating) ∧
    (∀ s : AppState, ∀ e : Event, s.phase = Phase.Terminating →
      dispatch s e = some s) ∧
    (∀ c : Collaborators, ∀ events : List Event, ∀ o : RunOutcome,
      main c events = Except.ok o →
      o.exit_code = 0 ∧
      run (OrcaApplication.new "com.github.wroyca.orca" 0) events =
        some (o.app, o.exit_code)) := by
  refine ⟨?_, ?_, ?_⟩
  · intro s h1 h2
    constructor
    · unfold dispatch
      rw [h1]
      simp [h2, OrcaApplication.quitHandler]
    · rfl
  · intro s e h
    unfold dispatch
    rw [h]
  · intro c events o h
    obtain ⟨ht, he, hr⟩ := main_ok_inv c events o h
    refine ⟨he, ?_⟩
    rw [he]
    unfold run
    rw [hr]
    rfl

/-- Witness for C6: the fresh application dispatches quit into
Terminating, the terminated state absorbs an activation, and the
event-free run exits with code 0. -/
theorem quit_terminates_event_loop_witness :
    dispatch (OrcaApplication.new "com.github.wroyca.orca" 0)
        (Event.action "quit") =
      some (OrcaApplication.quit (OrcaApplication.new "com.github.wroyca.orca" 0)) ∧
    dispatch (OrcaApplication.quit (OrcaApplication.new "com.github.wroyca.orca" 0))
        Event.activation =
      some (OrcaApplication.quit (OrcaApplication.new "com.github.wroyca.orca" 0)) ∧
    idleOutcome.exit_code = 0 :=
  ⟨(quit_terminates_event_loop.1 _ rfl (by decide)).1,
   quit_terminates_event_loop.2.1 _ Event.activation rfl,
   (quit_terminates_event_loop.2.2 allOk [] idleOutcome rfl).1⟩

/-- C7: each of the four startup collaborator failures aborts `main`
immediately with its own diagnostic and no retry; when startup
completes, the trace shows localization and resource registration, in
order, strictly before the application is constructed — and the freshly
constructed application has constructed no window yet. -/
theorem startup_fatal_before_construction :
    (∀ c : Collaborators, ∀ events : List Event,
      c.bindtextdomain_ok = false →
      main c events = Except.error "Unable to bind the text domain") ∧
    (∀ c : Collaborators, ∀ events : List Event,
      c.bindtextdomain_ok = true → c.bind_textdomain_codeset_ok = false →
      main c events = Except.error "Unable to set the text domain encoding") ∧
    (∀ c : Collaborators, ∀ events : List Event,
      c.bindtextdomain_ok = true → c.bind_textdomain_codeset_ok = true →
      c.textdomain_ok = false →
      main c events = Except.error "Unable to switch to the text domain") ∧
    (∀ c : Collaborators, ∀ events : List Event,
      c.bindtextdomain_ok = true → c.bind_textdomain_codeset_ok = true →
      c.textdomain_ok = true → c.resources_register_ok = false →
      main c events = Except.error "Could not load resources") ∧
    (∀ c : Collaborators, ∀ events : List Event, ∀ o : RunOutcome,
      main c events = Except.ok o →
      o.trace =
        [StartupStep.bindTextdomain, StartupStep.bindCodeset,
         StartupStep.textdomainSwitch, StartupStep.registerResources,
         StartupStep.constructApp]) ∧
    (OrcaApplication.new "com.github.wroyca.orca" 0).windows_constructed = 0 := by
  refine ⟨?_, ?_, ?_, ?_, ?_, rfl⟩
  · intro c events h1
    unfold main
    simp [h1]
  · intro c events h1 h2
    unfold main
    simp [h1, h2]
  · intro c events h1 h2 h3
    unfold main
    simp [h1, h2, h3]
  · intro c events h1 h2 h3 h4
    unfold main
    simp [h1, h2, h3, h4]
  · intro c events o h
    exact (main_ok_inv c events o h).1

/-- Witness for C7: a localization failure and a resource failure each
abort with their diagnostic, and the all-ok idle run has the full
in-order startup trace. -/
theorem startup_fatal_before_construction_witness :
    main { bindtextdomain_ok := false, bind_textdomain_codeset_ok := true,
           textdomain_ok := true, resources_register_ok := true } [] =
      Except.error "Unable to bind the text domain" ∧
    main { bindtextdomain_ok := true, bind_textdomain_codeset_ok := true,
           textdomain_ok := true, resources_register_ok := false } [] =
      Except.error "Could not load resources" ∧
    idleOutcome.trace =
      [StartupStep.bindTextdomain, StartupStep.bindCodeset,
       StartupStep.textdomainSwitch, StartupStep.registerResources,
       StartupStep.constructApp] :=
  ⟨startup_fatal_before_construction.1 _ [] rfl,
   startup_fatal_before_construction.2.2.2.1 _ [] rfl rfl rfl rfl,
   startup_fatal_before_construction.2.2.2.2.1 allOk [] idleOutcome rfl⟩

/-- C9: a completed `main` constructed exactly one application — with
the fixed id "com.github.wroyca.orca" and the empty flag set, both still
in place when the loop returns — and its final statement exits the
process with the run result of that same application instance. -/
theorem main_single_app_and_exit (c : Collaborators) (events : List Event)
    (o : RunOutcome) (h : main c events = Except.ok o) :
    o.trace.count StartupStep.constructApp = 1 ∧
    run (OrcaApplication.new "com.github.wroyca.orca" 0) events =
      some (o.app, o.exit_code) ∧
    o.app.application_id = "com.github.wroyca.orca" ∧
    o.app.flags = 0 := by
  obtain ⟨ht, he, hr⟩ := main_ok_inv c events o h
  have hp := runLoop_preserves_identity events _ _ hr
  refine ⟨?_, ?_, ?_, ?_⟩
  · rw [ht]
    rfl
  · rw [he]
    unfold run
    rw [hr]
    rfl
  · exact hp.1.trans rfl
  · exact hp.2.trans rfl

/-- Witness for C9 on the event-free all-ok run. -/
theorem main_single_app_and_exit_witness :
    idleOutcome.trace.count StartupStep.constructApp = 1 ∧
    run (OrcaApplication.new "com.github.wroyca.orca" 0) [] =
      some (idleOutcome.app, idleOutcome.exit_code) ∧
    idleOutcome.app.application_id = "com.github.wroyca.orca" ∧
    idleOutcome.app.flags = 0 :=
  main_single_app_and_exit allOk [] idleOutcome rfl

end Orca
